import Mathlib

/-!
Shallow embedding of `src/server/src/server.js` (a minimal Express/Mongoose
server) and proofs of the specification claims about it.

The server: reads `PORT` and `MONGO_URI` from the environment with defaults,
connects to MongoDB with a naive retry-forever-on-error loop, seeds one
`User` record named "Big Bill Brown" unconditionally at startup, and serves
`GET /welcome` by reading the first record of the `User` collection.
-/

namespace MernServer

/-! ### Data model

`userSchema` has one semantic field `name : String` (plus store-managed
timestamps, which no code in the repository reads or writes explicitly;
they are omitted from the embedding). The store is the `User` collection:
a list of records in insertion order.
-/

/-- A document of the `User` collection: `new Schema({ name: String }, { timestamps: true })`. -/
structure Record where
  name : String
deriving DecidableEq, Repr

/-- The `User` collection, in insertion order. -/
abbrev Store := List Record

/-- The startup seed record: `new User({ name: "Big Bill Brown" })`. -/
def seedUser : Record := { name := "Big Bill Brown" }

/-- The query `User.find().exec()`: returns every record of the
collection, first inserted first. -/
def User_find (s : Store) : List Record := s

/-! ### Configuration

`const port = process.env.PORT || 4000;`
`const mongoUri = process.env.MONGO_URI || "mongodb://localhost:27017/test";`

`process.env.X` is a string when the variable is set and `undefined`
otherwise; JavaScript `||` takes the right operand exactly when the left is
falsy, and the falsy strings are `undefined` and `""`. `port` is therefore
either the environment string or the number `4000`.
-/

/-- A JavaScript value that is either a string (from the environment) or a
number (the hard-coded default). -/
inductive JsValue where
  | str (s : String)
  | num (n : Nat)
deriving DecidableEq, Repr

/-- The environment variables the server reads. `none` models an unset
variable. -/
structure Env where
  PORT : Option String
  MONGO_URI : Option String
deriving DecidableEq, Repr

/-- The value of `process.env.PORT || 4000`. -/
def Env.portValue (env : Env) : JsValue :=
  match env.PORT with
  | none => .num 4000
  | some s => if s = "" then .num 4000 else .str s

/-- The value of `process.env.MONGO_URI || "mongodb://localhost:27017/test"`. -/
def Env.mongoUriValue (env : Env) : String :=
  match env.MONGO_URI with
  | none => "mongodb://localhost:27017/test"
  | some s => if s = "" then "mongodb://localhost:27017/test" else s

/-! ### The `/welcome` route

```
app.get("/welcome", async (req, res) => {
  console.log("Client request received");
  const user = await User.find().exec();
  console.log(user[0].name);
  res.send(`Hello Client! There is one record in the database for ...`);
});
```

When the collection is empty, `user[0]` is `undefined` and `user[0].name`
throws a TypeError inside the async handler; nothing in the source catches
it, so the request fails instead of producing a response.
-/

/-- The fault the handler raises when the collection is empty: reading
`name` off the missing element `user[0]`. -/
inductive HandlerFault where
  | firstRecordMissing
deriving DecidableEq, Repr

/-- An HTTP response: status code and plain-text body. -/
structure Response where
  status : Nat
  body : String
deriving DecidableEq, Repr

/-- The `GET /welcome` handler body, as a function of the store contents at
request time. `.error` is the uncaught TypeError on `user[0].name`. -/
def welcomeHandler (store : Store) : Except HandlerFault Response :=
  let user := User_find store
  match user.head? with
  | none => .error .firstRecordMissing
  | some u =>
      .ok { status := 200
            body := "Hello Client! There is one record in the database for " ++ u.name }

/-! ### Connection supervisor

```
const options = { useNewUrlParser: true };
const conn = () => { mongoose.connect(mongoUri, options); };
conn();
const db = mongoose.connection;
db.on("error", err => {
  console.log("There was a problem connecting to mongo: ", err);
  console.log("Trying again");
  setTimeout(() => conn(), 5000);
});
db.once("open", () => console.log("Successfully connected to mongo"));
```

Embedding: connection-lifecycle events (`error` with a timestamp and error
value, `open` with a timestamp) are fed to a step function. The `error`
handler appends two log messages and schedules one `conn()` call at
event time plus the fixed 5000 ms delay. The `open` handler is wired with
`once`, modelled by a one-shot `armed` flag that startup sets and nothing
re-arms.
-/

/-- The module-level `options` object: `{ useNewUrlParser: true }`. -/
def options : Bool := true

/-- One call to `mongoose.connect(mongoUri, options)`: the connection
descriptor it is given. -/
structure ConnCall where
  uri : String
  useNewUrlParser : Bool
deriving DecidableEq, Repr

/-- The function `conn()`: calls `mongoose.connect` with the module-level
`mongoUri` and `options`, both fixed at startup. -/
def conn (mongoUri : String) : ConnCall :=
  { uri := mongoUri, useNewUrlParser := options }

/-- The `setTimeout` delay of the retry, in milliseconds. -/
def RETRY_DELAY : Nat := 5000

/-- A connection-lifecycle event emitted by the driver, with the time (ms)
at which it is observed. -/
inductive DbEvent where
  | connError (t : Nat) (err : String)
  | connOpen (t : Nat)
deriving DecidableEq, Repr

/-- Is the event a connection failure? -/
def DbEvent.isError : DbEvent → Bool
  | .connError _ _ => true
  | .connOpen _ => false

/-- Is the event a readiness (`open`) signal? -/
def DbEvent.isOpen : DbEvent → Bool
  | .connError _ _ => false
  | .connOpen _ => true

/-- A console.log message, tagged by which `console.log` call in the source
emits it; `render` gives the exact text. -/
inductive LogMsg where
  | mongoProblem (err : String)
  | tryingAgain
  | mongoConnected
  | clientRequest
  | firstUserName (name : String)
  | savedToDb (name : String)
  | saveFailed (err : String)
  | listeningOn (port : JsValue)
deriving DecidableEq, Repr

/-- The text of a `JsValue` when interpolated into a template string. -/
def JsValue.render : JsValue → String
  | .str s => s
  | .num n => toString n

/-- The text each tagged log message prints. -/
def LogMsg.render : LogMsg → String
  | .mongoProblem err => "There was a problem connecting to mongo: " ++ err
  | .tryingAgain => "Trying again"
  | .mongoConnected => "Successfully connected to mongo"
  | .clientRequest => "Client request received"
  | .firstUserName n => n
  | .savedToDb n => n ++ " saved to the database"
  | .saveFailed err => err
  | .listeningOn p => "Listening on port " ++ p.render

/-- State of the connection supervisor. `mongoUri` is the module constant
captured by the `conn` closure; `openArmed` is the one-shot `db.once("open")`
registration; `retries` are the pending `setTimeout(() => conn(), 5000)`
calls as (fire time, connect call) pairs. -/
structure SupState where
  mongoUri : String
  openArmed : Bool
  logs : List LogMsg
  retries : List (Nat × ConnCall)
deriving DecidableEq, Repr

/-- Supervisor state right after startup wires the two handlers. -/
def initSup (mongoUri : String) : SupState :=
  { mongoUri := mongoUri, openArmed := true, logs := [], retries := [] }

/-- One driver event, as handled by `db.on("error", ...)` and
`db.once("open", ...)`. -/
def handleDbEvent (s : SupState) : DbEvent → SupState
  | .connError t err =>
      { s with
        logs := s.logs ++ [.mongoProblem err, .tryingAgain]
        retries := s.retries ++ [(t + RETRY_DELAY, conn s.mongoUri)] }
  | .connOpen _ =>
      if s.openArmed then
        { s with openArmed := false, logs := s.logs ++ [.mongoConnected] }
      else s

/-- Process a sequence of driver events in order. -/
def runDbEvents (s : SupState) (es : List DbEvent) : SupState :=
  es.foldl handleDbEvent s

/-- The retry a single event schedules, if any: an `error` at time `t`
schedules `conn()` (with the startup descriptor) to fire at
`t + RETRY_DELAY`; an `open` schedules nothing. -/
def retryOf (mongoUri : String) : DbEvent → Option (Nat × ConnCall)
  | .connError t _ => some (t + RETRY_DELAY, conn mongoUri)
  | .connOpen _ => none

/-! ### Store operations and startup

The only two operations the process ever issues against the store are the
startup `user.save()` and the handler's `User.find().exec()`. -/

/-- A store operation issued by this process. -/
inductive StoreOp where
  | findQuery
  | seedInsert
deriving DecidableEq, Repr

/-- The startup `user.save()`: inserts the seed record unconditionally —
the source never checks whether a record already exists. -/
def startupSeed (s : Store) : Store := s ++ [seedUser]

/-- Effect of each operation on the collection. `find` reads only. -/
def applyOp : StoreOp → Store → Store
  | .findQuery, s => s
  | .seedInsert, s => startupSeed s

/-- Outcome of the asynchronous `user.save()` promise. -/
inductive SaveResult where
  | ok (saved : Record)
  | error (err : String)
deriving DecidableEq, Repr

/-- The single log the save outcome produces, from
`.then(user => console.log(...)).catch(err => console.log(err))`. -/
def seedSaveLog : SaveResult → LogMsg
  | .ok u => .savedToDb u.name
  | .error err => .saveFailed err

/-- Whole-process state after startup: the supervisor, the HTTP listener,
the diagnostic logs of the seed write, the store operations issued so far,
and whether anything escalated to a fatal process exit. -/
structure Process where
  sup : SupState
  port : JsValue
  listening : Bool
  seedLogs : List LogMsg
  storeOps : List StoreOp
  fatal : Bool
deriving DecidableEq, Repr

/-- Process startup, in source order: `conn()`; wire the `error`/`open`
handlers; register the route; issue `user.save()` once (its asynchronous
outcome is the parameter); `app.listen(port, ...)`. Returns the process
state and the store after the save settles. -/
def startup (env : Env) (saveOutcome : SaveResult) (store : Store) :
    Process × Store :=
  ({ sup := initSup env.mongoUriValue
     port := env.portValue
     listening := true
     seedLogs := [seedSaveLog saveOutcome]
     storeOps := [.seedInsert]
     fatal := false },
   match saveOutcome with
   | .ok _ => applyOp .seedInsert store
   | .error _ => store)

/-- A driver event at process level: only the supervisor state changes; the
listener stays up and nothing exits the process. -/
def procDbEvent (p : Process) (e : DbEvent) : Process :=
  { p with sup := handleDbEvent p.sup e }

/-- Process a sequence of driver events at process level. -/
def runProc (p : Process) (es : List DbEvent) : Process :=
  es.foldl procDbEvent p

/-- Serving one `GET /welcome` request: records the `find` query and runs
the handler against the store; the store itself is unchanged by a read. -/
def serveWelcome (p : Process) (store : Store) :
    Process × Store × Except HandlerFault Response :=
  ({ p with storeOps := p.storeOps ++ [.findQuery] },
   applyOp .findQuery store,
   welcomeHandler store)

/-- The store after restarting the process `N` times against a persistent
store, each startup seed write succeeding. -/
def restartN (env : Env) (N : Nat) (s : Store) : Store :=
  (fun st => (startup env (SaveResult.ok seedUser) st).2)^[N] s

/-! ### Helper lemmas -/

/-- A single driver event never changes the captured connection string. -/
theorem handleDbEvent_mongoUri (s : SupState) (e : DbEvent) :
    (handleDbEvent s e).mongoUri = s.mongoUri := by
  cases e with
  | connError t err => rfl
  | connOpen t =>
      simp only [handleDbEvent]
      split <;> rfl

/-- No sequence of driver events changes the captured connection string. -/
theorem runDbEvents_mongoUri (s : SupState) (es : List DbEvent) :
    (runDbEvents s es).mongoUri = s.mongoUri := by
  induction es generalizing s with
  | nil => rfl
  | cons e es ih =>
      rw [runDbEvents, List.foldl_cons, ← runDbEvents, ih, handleDbEvent_mongoUri]

/-- A single event appends exactly the retry `retryOf` describes. -/
theorem handleDbEvent_retries (s : SupState) (e : DbEvent) :
    (handleDbEvent s e).retries = s.retries ++ (retryOf s.mongoUri e).toList := by
  cases e with
  | connError t err => rfl
  | connOpen t =>
      simp only [handleDbEvent, retryOf, Option.toList_none, List.append_nil]
      split <;> rfl

/-- The pending retries after a sequence of events: the ones already pending
followed by one retry per `error` event, in order, each firing at its
failure time plus `RETRY_DELAY` and each calling `conn()` with the captured
connection string. -/
theorem runDbEvents_retries (s : SupState) (es : List DbEvent) :
    (runDbEvents s es).retries = s.retries ++ es.filterMap (retryOf s.mongoUri) := by
  induction es generalizing s with
  | nil => simp [runDbEvents]
  | cons e es ih =>
      rw [runDbEvents, List.foldl_cons, ← runDbEvents, ih, handleDbEvent_mongoUri,
        handleDbEvent_retries]
      cases e <;> simp [retryOf]

/-- One retry is scheduled per `error` event: the count matches. -/
theorem filterMap_retryOf_length (uri : String) (es : List DbEvent) :
    (es.filterMap (retryOf uri)).length = es.countP DbEvent.isError := by
  induction es with
  | nil => rfl
  | cons e es ih =>
      cases e <;> simp [retryOf, DbEvent.isError, List.countP_cons, ih]

/-- How many times the `open` handler has logged after a sequence of events:
one more than before exactly when the one-shot handler was still armed and
the sequence contains an `open` event. -/
theorem runDbEvents_connected_count (s : SupState) (es : List DbEvent) :
    ((runDbEvents s es).logs.count LogMsg.mongoConnected) =
      s.logs.count LogMsg.mongoConnected +
        (if s.openArmed && es.any DbEvent.isOpen then 1 else 0) := by
  induction es generalizing s with
  | nil => simp [runDbEvents]
  | cons e es ih =>
      rw [runDbEvents, List.foldl_cons, ← runDbEvents, ih]
      cases e with
      | connError t err =>
          simp [handleDbEvent, List.count_append, DbEvent.isOpen]
      | connOpen t =>
          cases hA : s.openArmed with
          | true =>
              simp [handleDbEvent, hA, List.count_append, DbEvent.isOpen]
          | false =>
              simp [handleDbEvent, hA, DbEvent.isOpen]

/-- Iterating the unconditional seed insert `N` times adds exactly `N`
copies of the seed record. -/
theorem startupSeed_iterate (s : Store) (N : Nat) :
    (startupSeed^[N] s).count seedUser = s.count seedUser + N ∧
    (startupSeed^[N] s).length = s.length + N := by
  have hbeq : (seedUser == seedUser) = true := by decide
  induction N with
  | zero => simp
  | succ n ih =>
      rw [Function.iterate_succ_apply']
      refine ⟨?_, ?_⟩
      · rw [startupSeed, List.count_append, ih.1]
        simp [List.count_cons, hbeq]
        omega
      · rw [startupSeed, List.length_append, ih.2]
        simp
        omega

/-- Driver events never touch the fatal flag of the process. -/
theorem runProc_fatal (p : Process) (es : List DbEvent) :
    (runProc p es).fatal = p.fatal := by
  induction es generalizing p with
  | nil => rfl
  | cons e es ih =>
      rw [runProc, List.foldl_cons, ← runProc, ih]
      rfl

/-- Driver events never touch the HTTP listener. -/
theorem runProc_listening (p : Process) (es : List DbEvent) :
    (runProc p es).listening = p.listening := by
  induction es generalizing p with
  | nil => rfl
  | cons e es ih =>
      rw [runProc, List.foldl_cons, ← runProc, ih]
      rfl

/-- Driver events never touch the listen port. -/
theorem runProc_port (p : Process) (es : List DbEvent) :
    (runProc p es).port = p.port := by
  induction es generalizing p with
  | nil => rfl
  | cons e es ih =>
      rw [runProc, List.foldl_cons, ← runProc, ih]
      rfl

/-! ### Claim theorems -/

/-- C1: for every `GET /welcome` request against a store with at least one
record, the handler responds `200` with plain-text body
`"Hello Client! There is one record in the database for <name>"` where
`<name>` is the name of the first record the query returns; in particular a
store holding exactly one record named `"Big Bill Brown"` yields the body
`"Hello Client! There is one record in the database for Big Bill Brown"`. -/
theorem welcome_nonempty_ok (store : Store) (h : store ≠ []) :
    (∃ u, (User_find store).head? = some u ∧
        welcomeHandler store =
          .ok { status := 200
                body := "Hello Client! There is one record in the database for " ++ u.name }) ∧
    welcomeHandler [{ name := "Big Bill Brown" }] =
      .ok { status := 200
            body := "Hello Client! There is one record in the database for Big Bill Brown" } := by
  constructor
  · cases store with
    | nil => exact absurd rfl h
    | cons u us => exact ⟨u, rfl, rfl⟩
  · rfl

/-- Witness for C1 at the one-record store of the spec example. -/
theorem welcome_nonempty_ok_witness :
    ([seedUser] : Store) ≠ [] ∧
    ((∃ u, (User_find [seedUser]).head? = some u ∧
        welcomeHandler [seedUser] =
          .ok { status := 200
                body := "Hello Client! There is one record in the database for " ++ u.name }) ∧
    welcomeHandler [{ name := "Big Bill Brown" }] =
      .ok { status := 200
            body := "Hello Client! There is one record in the database for Big Bill Brown" }) :=
  ⟨by decide, welcome_nonempty_ok [seedUser] (by decide)⟩

/-- C2: for every `GET /welcome` request against a store with zero records,
the handler does not produce a success response: it fails with the
index-out-of-range class fault of reading `name` off the missing first
element `user[0]`, and nothing in the handler catches it. -/
theorem welcome_empty_faults (store : Store) (h : store.length = 0) :
    welcomeHandler store = .error .firstRecordMissing ∧
    ∀ r : Response, welcomeHandler store ≠ .ok r := by
  rcases List.length_eq_zero.mp h with rfl
  exact ⟨rfl, fun r hr => by cases hr⟩

/-- Witness for C2 at the empty store. -/
theorem welcome_empty_faults_witness :
    welcomeHandler [] = .error .firstRecordMissing ∧
    ∀ r : Response, welcomeHandler [] ≠ .ok r :=
  welcome_empty_faults [] rfl

/-- C3: every connection-failure event schedules exactly one retry — a new
`conn()` call with the startup descriptor — firing at the failure time plus
the fixed `RETRY_DELAY` (5000 ms), hence no earlier than the delay after
the failure; this holds for every failure in every event sequence, so the
cycle repeats without a retry cap, backoff, or circuit breaker. -/
theorem connError_schedules_single_retry (uri : String) (es : List DbEvent) :
    (runDbEvents (initSup uri) es).retries = es.filterMap (retryOf uri) ∧
    (runDbEvents (initSup uri) es).retries.length = es.countP DbEvent.isError ∧
    (∀ t err, DbEvent.connError t err ∈ es →
      (t + RETRY_DELAY, conn uri) ∈ (runDbEvents (initSup uri) es).retries) ∧
    (∀ p ∈ (runDbEvents (initSup uri) es).retries,
      ∃ t err, DbEvent.connError t err ∈ es ∧ p = (t + RETRY_DELAY, conn uri) ∧
        t + RETRY_DELAY ≤ p.1) := by
  have hret : (runDbEvents (initSup uri) es).retries = es.filterMap (retryOf uri) := by
    simpa [initSup] using runDbEvents_retries (initSup uri) es
  refine ⟨hret, ?_, ?_, ?_⟩
  · rw [hret, filterMap_retryOf_length]
  · intro t err hmem
    rw [hret]
    exact List.mem_filterMap.mpr ⟨DbEvent.connError t err, hmem, rfl⟩
  · intro p hp
    rw [hret] at hp
    rcases List.mem_filterMap.mp hp with ⟨e, hmem, heq⟩
    cases e with
    | connError t err =>
        simp only [retryOf, Option.some.injEq] at heq
        exact ⟨t, err, hmem, heq.symm, le_of_eq (by rw [← heq])⟩
    | connOpen t => simp [retryOf] at heq

/-- Witness for C3 on a concrete failure/success/failure trace. -/
theorem connError_schedules_single_retry_witness :
    (runDbEvents (initSup "mongodb://localhost:27017/test")
        [DbEvent.connError 0 "refused", DbEvent.connOpen 7,
         DbEvent.connError 10 "refused"]).retries =
      [DbEvent.connError 0 "refused", DbEvent.connOpen 7,
       DbEvent.connError 10 "refused"].filterMap
        (retryOf "mongodb://localhost:27017/test") ∧
    (runDbEvents (initSup "mongodb://localhost:27017/test")
        [DbEvent.connError 0 "refused", DbEvent.connOpen 7,
         DbEvent.connError 10 "refused"]).retries =
      [(5000, conn "mongodb://localhost:27017/test"),
       (5010, conn "mongodb://localhost:27017/test")] :=
  ⟨(connError_schedules_single_retry "mongodb://localhost:27017/test"
      [DbEvent.connError 0 "refused", DbEvent.connOpen 7,
       DbEvent.connError 10 "refused"]).1,
   by decide⟩

/-- C4: the `"Successfully connected to mongo"` log is emitted exactly once
over any event sequence containing at least one readiness signal, and never
again for later reconnect cycles: the `once`-wired handler is not
re-armed. -/
theorem connected_logged_once (uri : String) (es : List DbEvent) :
    ((runDbEvents (initSup uri) es).logs.count LogMsg.mongoConnected =
      if es.any DbEvent.isOpen then 1 else 0) ∧
    (es.any DbEvent.isOpen = true →
      (runDbEvents (initSup uri) es).logs.count LogMsg.mongoConnected = 1) := by
  have h2 : (runDbEvents (initSup uri) es).logs.count LogMsg.mongoConnected =
      if es.any DbEvent.isOpen then 1 else 0 := by
    simpa [initSup] using runDbEvents_connected_count (initSup uri) es
  exact ⟨h2, fun hopen => by rw [h2, hopen]; rfl⟩

/-- Witness for C4 on a trace with a failure, a first success, and a second
readiness signal that logs nothing. -/
theorem connected_logged_once_witness :
    ([DbEvent.connError 0 "refused", DbEvent.connOpen 7,
      DbEvent.connOpen 9].any DbEvent.isOpen = true) ∧
    (runDbEvents (initSup "u")
        [DbEvent.connError 0 "refused", DbEvent.connOpen 7,
         DbEvent.connOpen 9]).logs.count LogMsg.mongoConnected = 1 :=
  ⟨by decide,
   (connected_logged_once "u"
      [DbEvent.connError 0 "refused", DbEvent.connOpen 7,
       DbEvent.connOpen 9]).2 (by decide)⟩

/-- C5: for every sequence of connection failures (any driver-event
sequence consisting of `error` events), the process never exits fatally:
the failure handler only logs and schedules a retry, and the HTTP listener
is up on the configured port after startup and stays up regardless of
connection state. -/
theorem connection_failures_never_fatal (env : Env) (saveOutcome : SaveResult)
    (store : Store) (es : List DbEvent) (h : ∀ e ∈ es, DbEvent.isError e) :
    (runProc (startup env saveOutcome store).1 es).fatal = false ∧
    (runProc (startup env saveOutcome store).1 es).listening = true ∧
    (runProc (startup env saveOutcome store).1 es).port = env.portValue := by
  refine ⟨?_, ?_, ?_⟩
  · rw [runProc_fatal]; rfl
  · rw [runProc_listening]; rfl
  · rw [runProc_port]; rfl

/-- Witness for C5: startup against an unreachable store address followed
by two connection failures. -/
theorem connection_failures_never_fatal_witness :
    (∀ e ∈ [DbEvent.connError 0 "unreachable", DbEvent.connError 5000 "unreachable"],
      DbEvent.isError e) ∧
    ((runProc (startup { PORT := none, MONGO_URI := some "mongodb://db:1/none" }
          (SaveResult.error "no connection") []).1
        [DbEvent.connError 0 "unreachable", DbEvent.connError 5000 "unreachable"]).fatal
        = false ∧
      (runProc (startup { PORT := none, MONGO_URI := some "mongodb://db:1/none" }
          (SaveResult.error "no connection") []).1
        [DbEvent.connError 0 "unreachable", DbEvent.connError 5000 "unreachable"]).listening
        = true ∧
      (runProc (startup { PORT := none, MONGO_URI := some "mongodb://db:1/none" }
          (SaveResult.error "no connection") []).1
        [DbEvent.connError 0 "unreachable", DbEvent.connError 5000 "unreachable"]).port
        = Env.portValue { PORT := none, MONGO_URI := some "mongodb://db:1/none" }) :=
  ⟨by decide,
   connection_failures_never_fatal { PORT := none, MONGO_URI := some "mongodb://db:1/none" }
     (SaveResult.error "no connection") []
     [DbEvent.connError 0 "unreachable", DbEvent.connError 5000 "unreachable"]
     (by decide)⟩

/-- C6: every startup saves exactly one seed record named
`"Big Bill Brown"`, unconditionally appending it with no existence check
(it issues exactly the one `seedInsert` store operation), so restarting `N`
times against a persistent store adds exactly `N` duplicate seed records. -/
theorem startup_seeds_unconditionally (env : Env) (saveOutcome : SaveResult)
    (s : Store) (N : Nat) :
    (startup env (SaveResult.ok seedUser) s).2 = s ++ [seedUser] ∧
    (startup env saveOutcome s).1.storeOps = [StoreOp.seedInsert] ∧
    seedUser.name = "Big Bill Brown" ∧
    (restartN env N s).count seedUser = s.count seedUser + N ∧
    (restartN env N s).length = s.length + N := by
  have hfun : (fun st => (startup env (SaveResult.ok seedUser) st).2) = startupSeed :=
    funext fun st => rfl
  have hiter : restartN env N s = startupSeed^[N] s := by
    rw [restartN, hfun]
  exact ⟨rfl, by cases saveOutcome <;> rfl, rfl,
    by rw [hiter]; exact (startupSeed_iterate s N).1,
    by rw [hiter]; exact (startupSeed_iterate s N).2⟩

/-- C7: when the startup seed write fails, the failure is only logged (the
single `.catch` log), the listener still comes up, the process does not
exit, exactly the one save operation was issued (no retry), and the store
is unchanged. -/
theorem seed_save_failure_logged_only (env : Env) (err : String) (store : Store) :
    (startup env (SaveResult.error err) store).1.seedLogs = [LogMsg.saveFailed err] ∧
    (startup env (SaveResult.error err) store).1.listening = true ∧
    (startup env (SaveResult.error err) store).1.fatal = false ∧
    (startup env (SaveResult.error err) store).1.storeOps = [StoreOp.seedInsert] ∧
    (startup env (SaveResult.error err) store).2 = store :=
  ⟨rfl, rfl, rfl, rfl, rfl⟩

/-- C8 counterexample: an environment value that is set but empty is falsy
in JavaScript, so `process.env.PORT || 4000` discards the provided value
`""` and uses the default — the claim "when set, the provided values are
used" fails at `PORT=""` (and likewise for `MONGO_URI`). -/
theorem env_empty_string_uses_default :
    Env.portValue { PORT := some "", MONGO_URI := some "" } = JsValue.num 4000 ∧
    Env.portValue { PORT := some "", MONGO_URI := some "" } ≠ JsValue.str "" ∧
    Env.mongoUriValue { PORT := some "", MONGO_URI := some "" } =
      "mongodb://localhost:27017/test" ∧
    Env.mongoUriValue { PORT := some "", MONGO_URI := some "" } ≠ "" := by
  refine ⟨rfl, by decide, rfl, by decide⟩

/-- C8 (amended): unset `PORT` defaults to `4000` and unset `MONGO_URI`
defaults to `"mongodb://localhost:27017/test"`; a value set to a non-empty
string is used as provided; a value set to the empty string also falls back
to the default, because JavaScript `||` treats `""` as falsy. -/
theorem env_defaults (env : Env) :
    (env.PORT = none → env.portValue = JsValue.num 4000) ∧
    (env.MONGO_URI = none → env.mongoUriValue = "mongodb://localhost:27017/test") ∧
    (∀ s, env.PORT = some s → s ≠ "" → env.portValue = JsValue.str s) ∧
    (∀ s, env.MONGO_URI = some s → s ≠ "" → env.mongoUriValue = s) ∧
    (env.PORT = some "" → env.portValue = JsValue.num 4000) ∧
    (env.MONGO_URI = some "" → env.mongoUriValue = "mongodb://localhost:27017/test") := by
  obtain ⟨p, m⟩ := env
  refine ⟨?_, ?_, ?_, ?_, ?_, ?_⟩ <;> intro h
  · subst h; rfl
  · subst h; rfl
  · intro hp hs
    subst hp
    simp [Env.portValue, hs]
  · intro hm hs
    subst hm
    simp [Env.mongoUriValue, hs]
  · subst h; rfl
  · subst h; rfl

/-- Witness for C8 (amended): the defaults at an empty environment, and a
provided non-empty `MONGO_URI` being used. -/
theorem env_defaults_witness :
    Env.portValue { PORT := none, MONGO_URI := none } = JsValue.num 4000 ∧
    Env.mongoUriValue { PORT := none, MONGO_URI := none } =
      "mongodb://localhost:27017/test" ∧
    Env.mongoUriValue { PORT := none, MONGO_URI := some "mongodb://db:27017/db" } =
      "mongodb://db:27017/db" :=
  ⟨(env_defaults { PORT := none, MONGO_URI := none }).1 rfl,
   (env_defaults { PORT := none, MONGO_URI := none }).2.1 rfl,
   (env_defaults { PORT := none, MONGO_URI := some "mongodb://db:27017/db" }).2.2.2.1
     "mongodb://db:27017/db" rfl (by decide)⟩

/-- C9: the process issues only the startup seed insert and the read-only
`find` query, and neither operation updates or deletes a persisted record:
every existing record keeps its position and all its fields, and the store
never shrinks. -/
theorem store_records_preserved (op : StoreOp) (s : Store) (i : Nat)
    (h : i < s.length) :
    (op = StoreOp.findQuery ∨ op = StoreOp.seedInsert) ∧
    (applyOp op s)[i]? = s[i]? ∧
    s.length ≤ (applyOp op s).length ∧
    (applyOp op s).take s.length = s := by
  cases op with
  | findQuery => exact ⟨Or.inl rfl, rfl, le_refl _, by simp [applyOp]⟩
  | seedInsert =>
      refine ⟨Or.inr rfl, ?_, ?_, ?_⟩
      · simp [applyOp, startupSeed, List.getElem?_append, h]
      · simp [applyOp, startupSeed]
      · exact List.take_left s [seedUser]

/-- Witness for C9: the seed insert at a one-record store leaves the
existing record in place. -/
theorem store_records_preserved_witness :
    (0 < ([{ name := "Ada" }] : Store).length) ∧
    ((StoreOp.seedInsert = StoreOp.findQuery ∨ StoreOp.seedInsert = StoreOp.seedInsert) ∧
      (applyOp StoreOp.seedInsert [{ name := "Ada" }])[0]? =
        ([{ name := "Ada" }] : Store)[0]? ∧
      ([{ name := "Ada" }] : Store).length ≤
        (applyOp StoreOp.seedInsert [{ name := "Ada" }]).length ∧
      (applyOp StoreOp.seedInsert [{ name := "Ada" }]).take
        ([{ name := "Ada" }] : Store).length = [{ name := "Ada" }]) :=
  ⟨by decide, store_records_preserved StoreOp.seedInsert [{ name := "Ada" }] 0 (by decide)⟩

/-- C10: the connection descriptor is fixed at startup and invariant across
retry cycles: after any event sequence the captured connection string is
still the startup one, and every scheduled retry calls `conn()` with
exactly the startup `mongoUri` and `options`. -/
theorem retry_descriptor_invariant (uri : String) (es : List DbEvent) :
    (runDbEvents (initSup uri) es).mongoUri = uri ∧
    ∀ p ∈ (runDbEvents (initSup uri) es).retries,
      p.2 = conn uri ∧ p.2.uri = uri ∧ p.2.useNewUrlParser = options := by
  constructor
  · rw [runDbEvents_mongoUri]; rfl
  · intro p hp
    have hret : (runDbEvents (initSup uri) es).retries = es.filterMap (retryOf uri) := by
      simpa [initSup] using runDbEvents_retries (initSup uri) es
    rw [hret] at hp
    rcases List.mem_filterMap.mp hp with ⟨e, _, heq⟩
    cases e with
    | connError t err =>
        simp only [retryOf, Option.some.injEq] at heq
        rw [← heq]
        exact ⟨rfl, rfl, rfl⟩
    | connOpen t => simp [retryOf] at heq

/-- Witness for C10 on a concrete two-failure trace. -/
theorem retry_descriptor_invariant_witness :
    ((5000, conn "mongodb://db:27017/db") ∈
      (runDbEvents (initSup "mongodb://db:27017/db")
        [DbEvent.connError 0 "refused", DbEvent.connError 9000 "refused"]).retries) ∧
    ((5000, conn "mongodb://db:27017/db").2 = conn "mongodb://db:27017/db" ∧
      (5000, conn "mongodb://db:27017/db").2.uri = "mongodb://db:27017/db" ∧
      (5000, conn "mongodb://db:27017/db").2.useNewUrlParser = options) :=
  ⟨by decide,
   (retry_descriptor_invariant "mongodb://db:27017/db"
      [DbEvent.connError 0 "refused", DbEvent.connError 9000 "refused"]).2
     (5000, conn "mongodb://db:27017/db") (by decide)⟩

end MernServer
